import Mathlib

/-!
# Verification of the code-quality analyzer (`src/analyzer.py`)

Shallow embedding of the `CodeAnalyzer` pipeline: the Python AST node kinds the
analyzer inspects, the `ast.walk` traversal (which by its documentation yields
every descendant node, in no specified order; we enumerate them in pre-order,
and no analyzer metric depends on the order, only on which nodes occur),
and the metric and scoring functions, translated line by line from
`src/analyzer.py`.  Python `float` arithmetic is modelled by exact rationals
(`ℚ`); the only float literal involved is `0.3` = `3/10`.  Reading a file and
`ast.parse` are external collaborators: they enter as an `Except`-valued read
result and a `parse : String → Option Module` oracle.
-/

namespace CodeQuality

/-- `ast.And` / `ast.Or`: the operator of a `BoolOp` node. -/
inductive BoolOpKind where
  | land
  | lor

/-- `ast.arguments`: the parameter lists of a function definition.  Only the
names are modelled (default-value and annotation expressions are not used by
any analyzer metric).  `args` holds the plain positional-or-keyword
parameters — for a method this includes `self`, which the Python AST stores
as the first element of `args`. -/
structure Args where
  posonlyargs : List String
  args : List String
  kwonlyargs : List String
  vararg : Option String
  kwarg : Option String

mutual
/-- The statement nodes of the Python AST that the analyzer distinguishes,
plus a constructor each for the remaining simple statements it walks over. -/
inductive Stmt where
  | functionDef (name : String) (lineno : Nat) (args : Args) (body : List Stmt)
  | asyncFunctionDef (name : String) (lineno : Nat) (args : Args) (body : List Stmt)
  | classDef (name : String) (lineno : Nat) (body : List Stmt)
  | ifStmt (test : Expr) (body : List Stmt) (orelse : List Stmt)
  | whileStmt (test : Expr) (body : List Stmt) (orelse : List Stmt)
  | forStmt (target : Expr) (iter : Expr) (body : List Stmt) (orelse : List Stmt)
  | tryStmt (body : List Stmt) (handlers : List Handler) (orelse : List Stmt)
      (finalbody : List Stmt)
  | exprStmt (value : Expr)
  | ret (value : Option Expr)
  | assign (target : Expr) (value : Expr)
  | passStmt

/-- The expression nodes the analyzer can meet: `ast.BoolOp` (whose `op`
child is the counted `ast.And`/`ast.Or` node), string constants (docstrings),
other constants, and names. -/
inductive Expr where
  | boolOp (op : BoolOpKind) (values : List Expr)
  | constStr (s : String)
  | constOther
  | nameE (id : String)

/-- `ast.ExceptHandler`. -/
inductive Handler where
  | exceptHandler (body : List Stmt)
end

/-- `ast.Module`: the root node produced by `ast.parse`. -/
structure Module where
  body : List Stmt

/-- A node yielded by `ast.walk`: statements, expressions, exception
handlers, boolean operators, or the module root. -/
inductive Node where
  | stmt (s : Stmt)
  | expr (e : Expr)
  | handler (h : Handler)
  | op (k : BoolOpKind)
  | module (body : List Stmt)

mutual
/-- All nodes of a statement's subtree, the statement itself first
(`ast.walk` of that statement; order is irrelevant to every metric). -/
def walkStmt : Stmt → List Node
  | .functionDef n l a b => .stmt (.functionDef n l a b) :: walkStmts b
  | .asyncFunctionDef n l a b => .stmt (.asyncFunctionDef n l a b) :: walkStmts b
  | .classDef n l b => .stmt (.classDef n l b) :: walkStmts b
  | .ifStmt t b e => .stmt (.ifStmt t b e) :: (walkExpr t ++ walkStmts b ++ walkStmts e)
  | .whileStmt t b e => .stmt (.whileStmt t b e) :: (walkExpr t ++ walkStmts b ++ walkStmts e)
  | .forStmt tg it b e =>
      .stmt (.forStmt tg it b e) :: (walkExpr tg ++ walkExpr it ++ walkStmts b ++ walkStmts e)
  | .tryStmt b hs e f =>
      .stmt (.tryStmt b hs e f) ::
        (walkStmts b ++ walkHandlers hs ++ walkStmts e ++ walkStmts f)
  | .exprStmt v => .stmt (.exprStmt v) :: walkExpr v
  | .ret v => .stmt (.ret v) :: (match v with | some e => walkExpr e | none => [])
  | .assign t v => .stmt (.assign t v) :: (walkExpr t ++ walkExpr v)
  | .passStmt => [.stmt .passStmt]

def walkStmts : List Stmt → List Node
  | [] => []
  | s :: ss => walkStmt s ++ walkStmts ss

def walkExpr : Expr → List Node
  | .boolOp k vs => .expr (.boolOp k vs) :: .op k :: walkExprs vs
  | .constStr s => [.expr (.constStr s)]
  | .constOther => [.expr .constOther]
  | .nameE i => [.expr (.nameE i)]

def walkExprs : List Expr → List Node
  | [] => []
  | e :: es => walkExpr e ++ walkExprs es

def walkHandler : Handler → List Node
  | .exceptHandler b => .handler (.exceptHandler b) :: walkStmts b

def walkHandlers : List Handler → List Node
  | [] => []
  | h :: hs => walkHandler h ++ walkHandlers hs
end

/-- `ast.walk` from the module root. -/
def walkModule (m : Module) : List Node :=
  .module m.body :: walkStmts m.body

example :
    walkStmt (.ifStmt (.boolOp .land [.nameE "a", .nameE "b"]) [.passStmt] []) =
      [.stmt (.ifStmt (.boolOp .land [.nameE "a", .nameE "b"]) [.passStmt] []),
       .expr (.boolOp .land [.nameE "a", .nameE "b"]), .op .land,
       .expr (.nameE "a"), .expr (.nameE "b"), .stmt .passStmt] := rfl

/-! ## Records produced by the analyzer (the dictionaries of `analyzer.py`) -/

/-- The per-function dictionary built by `_analyze_functions`. -/
structure FuncInfo where
  name : String
  line : Nat
  complexity : Nat
  has_docstring : Bool
  parameters : Nat

/-- The per-class dictionary built by `_analyze_classes`. -/
structure ClassInfo where
  name : String
  line : Nat
  methods : Nat
  has_docstring : Bool

/-- The per-file analysis dictionary built by `analyze_file`. -/
structure FileAnalysis where
  file_path : String
  lines_of_code : Nat
  functions : List FuncInfo
  classes : List ClassInfo
  complexity : ℚ
  docstring_coverage : ℚ
  code_quality_score : ℚ

/-- The directory-level dictionary built by `analyze_directory`. -/
structure DirectoryAnalysis where
  directory : String
  total_files : Nat
  total_lines_of_code : Nat
  total_functions : Nat
  total_classes : Nat
  average_complexity : ℚ
  files : List FileAnalysis
  overall_quality_score : ℚ

/-! ## Metric functions (`_count_lines_of_code` … `_calculate_quality_score`) -/

/-- ASCII characters removed by Python's `str.strip()`. -/
def isPySpace (c : Char) : Bool :=
  c = ' ' || c = '\t' || c = '\n' || c = '\r' || c = '\x0B' || c = '\x0C'

/-- Python `str.strip()` on a list of characters. -/
def pyStrip (l : List Char) : List Char :=
  ((l.dropWhile isPySpace).reverse.dropWhile isPySpace).reverse

/-- Python `s.startswith(c)` for a single-character prefix. -/
def pyStartsWith (l : List Char) (c : Char) : Bool :=
  match l with
  | [] => false
  | x :: _ => x = c

/-- Python `code.split('\n')`: split on every newline, keeping empty pieces. -/
def splitLines (s : List Char) : List (List Char) :=
  match s with
  | [] => [[]]
  | c :: rest =>
      if c = '\n' then [] :: splitLines rest
      else
        match splitLines rest with
        | [] => [[c]]
        | l :: ls => (c :: l) :: ls

/-- `_count_lines_of_code`: count the lines that are non-empty after
stripping and do not start with `#`. -/
def count_lines_of_code (code : String) : Nat :=
  (splitLines code.data).foldl
    (fun loc line =>
      let stripped := pyStrip line
      if !stripped.isEmpty && !pyStartsWith stripped '#' then loc + 1 else loc)
    0

/-- `ast.get_docstring(node) is not None`: the body's first statement is an
expression statement whose value is a string constant. -/
def get_docstring : List Stmt → Option String
  | .exprStmt (.constStr s) :: _ => some s
  | _ => none

/-- The `isinstance(child, (ast.If, ast.While, ast.For, ast.ExceptHandler,
ast.And, ast.Or))` test of `_calculate_complexity`. -/
def isDecisionNode : Node → Bool
  | .stmt (.ifStmt _ _ _) => true
  | .stmt (.whileStmt _ _ _) => true
  | .stmt (.forStmt _ _ _ _) => true
  | .handler _ => true
  | .op _ => true
  | _ => false

/-- `isinstance(n, ast.FunctionDef)` on a statement (used for class method
counting); `ast.AsyncFunctionDef` is not a subclass of `ast.FunctionDef`. -/
def isFunctionDefStmt : Stmt → Bool
  | .functionDef _ _ _ _ => true
  | _ => false

/-- `isinstance(node, (ast.FunctionDef, ast.ClassDef))`: the node kinds
counted by `_check_docstring_coverage` and extracted by the two
`_analyze_*` walks. -/
def isDefOrClassNode : Node → Bool
  | .stmt (.functionDef _ _ _ _) => true
  | .stmt (.classDef _ _ _) => true
  | _ => false

/-- `_calculate_complexity`: 1 plus the number of decision nodes in the
node's entire subtree. -/
def _calculate_complexity (node : Stmt) : Nat :=
  1 + (walkStmt node).countP isDecisionNode

/-- The body of the `_analyze_functions` loop: the `func_info` dictionary
for an `ast.FunctionDef` node, `none` for every other node kind. -/
def funcInfoOfNode : Node → Option FuncInfo
  | .stmt (.functionDef n l a b) =>
      some { name := n, line := l,
             complexity := _calculate_complexity (.functionDef n l a b),
             has_docstring := (get_docstring b).isSome,
             parameters := a.args.length }
  | _ => none

/-- `_analyze_functions`: one `FuncInfo` per `ast.FunctionDef` met by
`ast.walk` over the whole tree. -/
def _analyze_functions (tree : Module) : List FuncInfo :=
  (walkModule tree).filterMap funcInfoOfNode

/-- The body of the `_analyze_classes` loop: the `class_info` dictionary for
an `ast.ClassDef` node (`methods` counts only direct body statements that
are `ast.FunctionDef`), `none` for every other node kind. -/
def classInfoOfNode : Node → Option ClassInfo
  | .stmt (.classDef n l b) =>
      some { name := n, line := l,
             methods := b.countP isFunctionDefStmt,
             has_docstring := (get_docstring b).isSome }
  | _ => none

/-- `_analyze_classes`: one `ClassInfo` per `ast.ClassDef` met by `ast.walk`. -/
def _analyze_classes (tree : Module) : List ClassInfo :=
  (walkModule tree).filterMap classInfoOfNode

/-- The body of the `_calculate_average_complexity` loop: the complexity of
an `ast.FunctionDef` node, `none` for every other node kind. -/
def complexityOfNode : Node → Option Nat
  | .stmt (.functionDef n l a b) => some (_calculate_complexity (.functionDef n l a b))
  | _ => none

/-- `_calculate_average_complexity`: mean of the complexities of all
`ast.FunctionDef` nodes in the tree, `0.0` when there are none. -/
def _calculate_average_complexity (tree : Module) : ℚ :=
  let complexities := (walkModule tree).filterMap complexityOfNode
  if complexities.isEmpty then 0
  else ((complexities.sum : ℕ) : ℚ) / (complexities.length : ℚ)

/-- The `(total, with_docstrings)` counters of `_check_docstring_coverage`,
accumulated over the walked nodes. -/
def docCounts : List Node → Nat × Nat
  | [] => (0, 0)
  | nd :: nds =>
      let r := docCounts nds
      match nd with
      | .stmt (.functionDef _ _ _ b) =>
          (r.1 + 1, r.2 + if (get_docstring b).isSome then 1 else 0)
      | .stmt (.classDef _ _ b) =>
          (r.1 + 1, r.2 + if (get_docstring b).isSome then 1 else 0)
      | _ => r

/-- `_check_docstring_coverage`: percentage of `FunctionDef`/`ClassDef`
nodes that have a docstring, `0.0` when there are none. -/
def _check_docstring_coverage (tree : Module) : ℚ :=
  let c := docCounts (walkModule tree)
  if c.1 > 0 then (c.2 : ℚ) / (c.1 : ℚ) * 100 else 0

/-- `_calculate_quality_score`: start from 100, apply the first matching
complexity band, the docstring adjustment (`0.3` is the rational `3/10`),
one −2 per function with more than 5 parameters, then clamp to `[0, 100]`. -/
def _calculate_quality_score (analysis : FileAnalysis) : ℚ :=
  let score : ℚ := 100
  let avg_complexity := analysis.complexity
  let score :=
    if avg_complexity > 10 then score - 30
    else if avg_complexity > 5 then score - 15
    else if avg_complexity > 3 then score - 5
    else score
  let doc_coverage := analysis.docstring_coverage
  let score := score + (doc_coverage - 50) * (3 / 10)
  let score := analysis.functions.foldl
    (fun s func => if func.parameters > 5 then s - 2 else s) score
  max 0 (min 100 score)

/-! ## Orchestration (`analyze_file`, `analyze_directory`) -/

/-- A file handed to the analyzer: its path and the outcome of the external
read (`open(...).read()`), either the decoded text or the exception
message `str(e)`. -/
structure SourceFile where
  path : String
  read : Except String String

/-- `analyze_file`: short-circuit to an error dictionary on read failure
(verbatim message) or parse failure, otherwise build the full analysis
dictionary and fill in its quality score.  `parse` is the external
`ast.parse` collaborator (`_parse_code` returns `None` on `SyntaxError`). -/
def analyze_file (parse : String → Option Module) (file : SourceFile) :
    Except String FileAnalysis :=
  match file.read with
  | .error e => .error e
  | .ok code =>
      match parse code with
      | none => .error "Failed to parse code"
      | some tree =>
          let analysis : FileAnalysis :=
            { file_path := file.path,
              lines_of_code := count_lines_of_code code,
              functions := _analyze_functions tree,
              classes := _analyze_classes tree,
              complexity := _calculate_average_complexity tree,
              docstring_coverage := _check_docstring_coverage tree,
              code_quality_score := 0 }
          .ok { analysis with code_quality_score := _calculate_quality_score analysis }

/-- The running accumulators of the `for file_path in python_files` loop of
`analyze_directory`. -/
structure DirTotals where
  file_analyses : List FileAnalysis
  total_loc : Nat
  total_functions : Nat
  total_classes : Nat
  total_complexity : ℚ

/-- The accumulation loop of `analyze_directory`: analyze each file in
order, skip failures, extend the success list and the four totals. -/
def dirScan (parse : String → Option Module) : List SourceFile → DirTotals
  | [] => ⟨[], 0, 0, 0, 0⟩
  | f :: fs =>
      let r := dirScan parse fs
      match analyze_file parse f with
      | .error _ => r
      | .ok a =>
          ⟨a :: r.file_analyses,
           a.lines_of_code + r.total_loc,
           a.functions.length + r.total_functions,
           a.classes.length + r.total_classes,
           a.complexity + r.total_complexity⟩

/-- `analyze_directory`: `python_files` is the output of the external
discovery collaborator (`rglob("*.py")` minus `__pycache__`).  An error
dictionary is returned only when that list is empty; otherwise the loop's
totals are packaged, with the two `if file_analyses else 0.0` guards. -/
def analyze_directory (parse : String → Option Module) (directory : String)
    (python_files : List SourceFile) : Except String DirectoryAnalysis :=
  if python_files.isEmpty then .error "No Python files found"
  else
    let r := dirScan parse python_files
    let file_analyses := r.file_analyses
    .ok { directory := directory,
          total_files := file_analyses.length,
          total_lines_of_code := r.total_loc,
          total_functions := r.total_functions,
          total_classes := r.total_classes,
          average_complexity :=
            if !file_analyses.isEmpty then r.total_complexity / (file_analyses.length : ℚ)
            else 0,
          files := file_analyses,
          overall_quality_score :=
            if !file_analyses.isEmpty then
              ((file_analyses.map (·.code_quality_score)).sum) / (file_analyses.length : ℚ)
            else 0 }

/-- The `CodeAnalyzer` instance: its only attribute is the `self.results`
dictionary, created empty by `__init__` and never read or written by any
method. -/
structure CodeAnalyzer where
  results : List (String × FileAnalysis)

/-- `CodeAnalyzer()`. -/
def CodeAnalyzer.init : CodeAnalyzer := ⟨[]⟩

/-- The method `analyze_file` with `self` threaded through explicitly: the
body never touches `self.results`, so the state passes through unchanged. -/
def CodeAnalyzer.analyze_file_m (self : CodeAnalyzer) (parse : String → Option Module)
    (file : SourceFile) : Except String FileAnalysis × CodeAnalyzer :=
  (analyze_file parse file, self)

/-- The method `analyze_directory` with `self` threaded through explicitly. -/
def CodeAnalyzer.analyze_directory_m (self : CodeAnalyzer) (parse : String → Option Module)
    (directory : String) (python_files : List SourceFile) :
    Except String DirectoryAnalysis × CodeAnalyzer :=
  (analyze_directory parse directory python_files, self)

/-- A def-or-class node that has a docstring (the increment condition of the
`with_docstrings` counter). -/
def nodeHasDocstring : Node → Bool
  | .stmt (.functionDef _ _ _ b) => (get_docstring b).isSome
  | .stmt (.classDef _ _ b) => (get_docstring b).isSome
  | _ => false

/-! ## Helper lemmas -/

theorem walkStmts_append (xs ys : List Stmt) :
    walkStmts (xs ++ ys) = walkStmts xs ++ walkStmts ys := by
  induction xs with
  | nil => simp [walkStmts]
  | cons s ss ih => simp [walkStmts, ih]

theorem funcInfoOfNode_eq_none (nd : Node) (h : isDefOrClassNode nd = false) :
    funcInfoOfNode nd = none := by
  cases nd with
  | stmt s => cases s <;> simp_all [isDefOrClassNode, funcInfoOfNode]
  | expr e => rfl
  | handler h => rfl
  | op k => rfl
  | module b => rfl

theorem classInfoOfNode_eq_none (nd : Node) (h : isDefOrClassNode nd = false) :
    classInfoOfNode nd = none := by
  cases nd with
  | stmt s => cases s <;> simp_all [isDefOrClassNode, classInfoOfNode]
  | expr e => rfl
  | handler h => rfl
  | op k => rfl
  | module b => rfl

theorem complexityOfNode_eq (nd : Node) :
    complexityOfNode nd = (funcInfoOfNode nd).map (·.complexity) := by
  cases nd with
  | stmt s => cases s <;> rfl
  | expr e => rfl
  | handler h => rfl
  | op k => rfl
  | module b => rfl

theorem filterMap_complexity_eq (ns : List Node) :
    ns.filterMap complexityOfNode = (ns.filterMap funcInfoOfNode).map (·.complexity) := by
  induction ns with
  | nil => rfl
  | cons nd ns ih =>
      rw [List.filterMap_cons, List.filterMap_cons, complexityOfNode_eq]
      cases funcInfoOfNode nd <;> simp [ih]

theorem countP_zero_of_le {p q : Node → Bool} (hpq : ∀ nd, p nd = true → q nd = true)
    (ns : List Node) (h : ns.countP q = 0) : ns.countP p = 0 := by
  rw [List.countP_eq_zero] at h ⊢
  intro nd hnd hp
  exact h nd hnd (hpq nd hp)

theorem nodeHasDocstring_le_isDefOrClass (nd : Node) :
    nodeHasDocstring nd = true → isDefOrClassNode nd = true := by
  cases nd with
  | stmt s => cases s <;> simp [nodeHasDocstring, isDefOrClassNode]
  | expr e => simp [nodeHasDocstring]
  | handler h => simp [nodeHasDocstring]
  | op k => simp [nodeHasDocstring]
  | module b => simp [nodeHasDocstring]

theorem filterMap_funcInfo_nil (ns : List Node) (h : ns.countP isDefOrClassNode = 0) :
    ns.filterMap funcInfoOfNode = [] := by
  rw [List.filterMap_eq_nil_iff]
  intro nd hnd
  exact funcInfoOfNode_eq_none nd (by
    have hall := List.countP_eq_zero.mp h nd hnd
    simpa using hall)

theorem filterMap_classInfo_nil (ns : List Node) (h : ns.countP isDefOrClassNode = 0) :
    ns.filterMap classInfoOfNode = [] := by
  rw [List.filterMap_eq_nil_iff]
  intro nd hnd
  exact classInfoOfNode_eq_none nd (by
    have hall := List.countP_eq_zero.mp h nd hnd
    simpa using hall)

theorem docCounts_eq_countP (ns : List Node) :
    docCounts ns = (ns.countP isDefOrClassNode, ns.countP nodeHasDocstring) := by
  induction ns with
  | nil => rfl
  | cons nd ns ih =>
      rw [List.countP_cons, List.countP_cons]
      cases nd with
      | stmt s =>
          cases s <;>
            simp [docCounts, ih, isDefOrClassNode, nodeHasDocstring]
      | expr e => simpa [docCounts, isDefOrClassNode, nodeHasDocstring] using ih
      | handler h => simpa [docCounts, isDefOrClassNode, nodeHasDocstring] using ih
      | op k => simpa [docCounts, isDefOrClassNode, nodeHasDocstring] using ih
      | module b => simpa [docCounts, isDefOrClassNode, nodeHasDocstring] using ih

theorem foldl_param_penalty (fs : List FuncInfo) (s : ℚ) :
    fs.foldl (fun acc func => if func.parameters > 5 then acc - 2 else acc) s
      = s - 2 * (fs.countP (fun func => func.parameters > 5) : ℚ) := by
  induction fs generalizing s with
  | nil => simp
  | cons f fs ih =>
      rw [List.foldl_cons, List.countP_cons]
      by_cases h : f.parameters > 5
      · simp only [h, if_pos, decide_eq_true_eq, ih]
        push_cast [h]
        ring
      · simp only [h, if_neg, decide_eq_true_eq, ih]
        push_cast [h]
        ring

/-- The complexity-band penalty as §4.4 of the spec words it: only the
first matching band applies. -/
def complexityBandPenalty (c : ℚ) : ℚ :=
  if c > 10 then 30 else if c > 5 then 15 else if c > 3 then 5 else 0

theorem quality_score_closed_form (a : FileAnalysis) :
    _calculate_quality_score a
      = max 0 (min 100 (100 - complexityBandPenalty a.complexity
          + (a.docstring_coverage - 50) * (3 / 10)
          - 2 * (a.functions.countP (fun func => func.parameters > 5) : ℚ))) := by
  unfold _calculate_quality_score complexityBandPenalty
  dsimp only
  rw [foldl_param_penalty]
  split_ifs <;> ring_nf

theorem loc_foldl_acc (ls : List (List Char)) (n : Nat) :
    ls.foldl
        (fun loc line =>
          let stripped := pyStrip line
          if !stripped.isEmpty && !pyStartsWith stripped '#' then loc + 1 else loc) n
      = n + ls.countP
          (fun line => !(pyStrip line).isEmpty && !pyStartsWith (pyStrip line) '#') := by
  induction ls generalizing n with
  | nil => simp
  | cons l ls ih =>
      rw [List.foldl_cons, List.countP_cons]
      dsimp only
      rw [ih]
      cases h : !(pyStrip l).isEmpty && !pyStartsWith (pyStrip l) '#'
      · simp [h]
      · simp [h]
        omega

/-! ## Claim theorems -/

/-- C2: the quality score is computed from 100 by subtracting the first
matching complexity band only (30 if `> 10`, else 15 if `> 5`, else 5 if
`> 3`, else 0), adding `(coverage − 50) × 0.3`, subtracting 2 for every
function with more than 5 parameters (stacking, no cap), and clamping to
`[0, 100]` exactly once at the end, so the score always lies in `[0, 100]`. -/
theorem C2_quality_score_formula (a : FileAnalysis) :
    _calculate_quality_score a
        = max 0 (min 100 (100 - complexityBandPenalty a.complexity
            + (a.docstring_coverage - 50) * (3 / 10)
            - 2 * (a.functions.countP (fun func => func.parameters > 5) : ℚ)))
      ∧ 0 ≤ _calculate_quality_score a ∧ _calculate_quality_score a ≤ 100 := by
  refine ⟨quality_score_closed_form a, ?_, ?_⟩
  · rw [quality_score_closed_form]
    exact le_max_left _ _
  · rw [quality_score_closed_form]
    exact max_le (by norm_num) (min_le_left _ _)

/-- C7: a line counts toward `lines_of_code` iff, after stripping leading
and trailing whitespace, it is non-empty and does not start with `#`; there
is no other condition, so the non-blank physical lines of multi-line string
literals (docstrings included) are counted like any other line. -/
theorem C7_lines_of_code_membership (code : String) :
    count_lines_of_code code
      = (splitLines code.data).countP
          (fun line => !(pyStrip line).isEmpty && !pyStartsWith (pyStrip line) '#') := by
  unfold count_lines_of_code
  rw [loc_foldl_acc, Nat.zero_add]

/-- C8: the quality score depends only on the `complexity`,
`docstring_coverage` and `functions` fields of the analysis record (equal
inputs give equal scores), and neither `analyze_file` nor
`analyze_directory` reads or writes the instance's `results` map: the
result is independent of the state and the state comes back unchanged. -/
theorem C8_purity (s t : CodeAnalyzer) (parse : String → Option Module)
    (file : SourceFile) (directory : String) (python_files : List SourceFile)
    (fa fb : FileAnalysis) (h1 : fa.complexity = fb.complexity)
    (h2 : fa.docstring_coverage = fb.docstring_coverage)
    (h3 : fa.functions = fb.functions) :
    _calculate_quality_score fa = _calculate_quality_score fb
    ∧ (s.analyze_file_m parse file).1 = (t.analyze_file_m parse file).1
    ∧ (s.analyze_file_m parse file).2 = s
    ∧ (s.analyze_directory_m parse directory python_files).1
        = (t.analyze_directory_m parse directory python_files).1
    ∧ (s.analyze_directory_m parse directory python_files).2 = s := by
  refine ⟨?_, rfl, rfl, rfl, rfl⟩
  simp only [_calculate_quality_score, h1, h2, h3]

/-- Witness for C8 at two records that differ in every field the scorer
does not read, and two distinct analyzer states. -/
theorem C8_purity_witness :
    _calculate_quality_score
        { file_path := "a.py", lines_of_code := 1, functions := [], classes := [],
          complexity := 2, docstring_coverage := 50, code_quality_score := 0 }
      = _calculate_quality_score
        { file_path := "b.py", lines_of_code := 999, functions := [],
          classes := [⟨"C", 1, 0, true⟩], complexity := 2, docstring_coverage := 50,
          code_quality_score := 7 }
    ∧ ((⟨[]⟩ : CodeAnalyzer).analyze_file_m (fun _ => none) ⟨"x.py", .error "e"⟩).1
        = ((⟨[("p", ⟨"p", 0, [], [], 0, 0, 0⟩)]⟩ : CodeAnalyzer).analyze_file_m
            (fun _ => none) ⟨"x.py", .error "e"⟩).1
    ∧ ((⟨[]⟩ : CodeAnalyzer).analyze_file_m (fun _ => none) ⟨"x.py", .error "e"⟩).2
        = (⟨[]⟩ : CodeAnalyzer)
    ∧ ((⟨[]⟩ : CodeAnalyzer).analyze_directory_m (fun _ => none) "d" []).1
        = ((⟨[("p", ⟨"p", 0, [], [], 0, 0, 0⟩)]⟩ : CodeAnalyzer).analyze_directory_m
            (fun _ => none) "d" []).1
    ∧ ((⟨[]⟩ : CodeAnalyzer).analyze_directory_m (fun _ => none) "d" []).2
        = (⟨[]⟩ : CodeAnalyzer) :=
  C8_purity ⟨[]⟩ ⟨[("p", ⟨"p", 0, [], [], 0, 0, 0⟩)]⟩ (fun _ => none)
    ⟨"x.py", .error "e"⟩ "d" [] _ _ rfl rfl rfl

/-- C6: `analyze_file` short-circuits: a read failure returns an error
carrying the underlying message verbatim, a parse failure returns the error
`"Failed to parse code"`, and otherwise the result is the fully populated
analysis record — never a partial one. -/
theorem C6_analyze_file_shortcircuit (parse : String → Option Module) (p : String)
    (rd : Except String String) :
    (∀ e, rd = .error e → analyze_file parse ⟨p, rd⟩ = .error e)
    ∧ (∀ code, rd = .ok code → parse code = none →
        analyze_file parse ⟨p, rd⟩ = .error "Failed to parse code")
    ∧ (∀ code tree, rd = .ok code → parse code = some tree →
        analyze_file parse ⟨p, rd⟩ = .ok
          { file_path := p,
            lines_of_code := count_lines_of_code code,
            functions := _analyze_functions tree,
            classes := _analyze_classes tree,
            complexity := _calculate_average_complexity tree,
            docstring_coverage := _check_docstring_coverage tree,
            code_quality_score := _calculate_quality_score
              { file_path := p, lines_of_code := count_lines_of_code code,
                functions := _analyze_functions tree, classes := _analyze_classes tree,
                complexity := _calculate_average_complexity tree,
                docstring_coverage := _check_docstring_coverage tree,
                code_quality_score := 0 } }) := by
  refine ⟨?_, ?_, ?_⟩
  · rintro e rfl
    rfl
  · rintro code rfl hp
    simp only [analyze_file, hp]
  · rintro code tree rfl hp
    simp only [analyze_file, hp]

/-- Witness for C6: a missing file's exception message comes back verbatim,
a file of invalid syntax produces the parse-failure message, and a parsed
empty module produces a fully populated record. -/
theorem C6_analyze_file_shortcircuit_witness :
    analyze_file (fun _ => none)
        ⟨"gone.py", .error "No such file or directory"⟩
      = .error "No such file or directory"
    ∧ analyze_file (fun _ => none) ⟨"bad.py", .ok "def ("⟩
      = .error "Failed to parse code"
    ∧ analyze_file (fun _ => some ⟨[]⟩) ⟨"empty.py", .ok ""⟩
      = .ok { file_path := "empty.py",
              lines_of_code := count_lines_of_code "",
              functions := _analyze_functions ⟨[]⟩,
              classes := _analyze_classes ⟨[]⟩,
              complexity := _calculate_average_complexity ⟨[]⟩,
              docstring_coverage := _check_docstring_coverage ⟨[]⟩,
              code_quality_score := _calculate_quality_score
                { file_path := "empty.py", lines_of_code := count_lines_of_code "",
                  functions := _analyze_functions ⟨[]⟩, classes := _analyze_classes ⟨[]⟩,
                  complexity := _calculate_average_complexity ⟨[]⟩,
                  docstring_coverage := _check_docstring_coverage ⟨[]⟩,
                  code_quality_score := 0 } } :=
  ⟨(C6_analyze_file_shortcircuit (fun _ => none) "gone.py"
      (.error "No such file or directory")).1 _ rfl,
   (C6_analyze_file_shortcircuit (fun _ => none) "bad.py" (.ok "def (")).2.1 _ rfl rfl,
   (C6_analyze_file_shortcircuit (fun _ => some ⟨[]⟩) "empty.py" (.ok "")).2.2 _ _ rfl rfl⟩

/-- C10: the extracted `parameters` count of a function record is the
length of the `args.args` list of its definition — positional-only,
keyword-only, `*args` and `**kwargs` parameters are all absent from it, a
`self` receiver sits in `args.args` and so is included — and the parameter
penalty of the scorer counts exactly the records with that field above 5. -/
theorem C10_parameter_count (n : String) (l : Nat) (a : Args) (b rest : List Stmt) :
    ((_analyze_functions ⟨.functionDef n l a b :: rest⟩).head?.map (·.parameters))
        = some a.args.length
    ∧ ∀ fa : FileAnalysis,
        _calculate_quality_score fa
          = max 0 (min 100 (100 - complexityBandPenalty fa.complexity
              + (fa.docstring_coverage - 50) * (3 / 10)
              - 2 * (fa.functions.countP (fun func => func.parameters > 5) : ℚ))) := by
  constructor
  · simp [_analyze_functions, walkModule, walkStmts, walkStmt, List.filterMap_cons,
      List.filterMap_append, funcInfoOfNode]
  · exact quality_score_closed_form

/-- C9: an `async def` node is invisible to every metric.  Replacing a
top-level `async def` wrapper by its body changes neither the extracted
function records, nor the average complexity, nor the docstring coverage,
nor the class records (so the node itself contributes nothing anywhere,
while plain definitions nested inside it are still walked), and an
`async def` sitting directly in a class body does not change that class's
method count. -/
theorem C9_async_defs_invisible (n : String) (l : Nat) (a : Args)
    (body rest : List Stmt) (cn : String) (cl : Nat) (cbody : List Stmt) :
    _analyze_functions ⟨.asyncFunctionDef n l a body :: rest⟩
        = _analyze_functions ⟨body ++ rest⟩
    ∧ _calculate_average_complexity ⟨.asyncFunctionDef n l a body :: rest⟩
        = _calculate_average_complexity ⟨body ++ rest⟩
    ∧ _check_docstring_coverage ⟨.asyncFunctionDef n l a body :: rest⟩
        = _check_docstring_coverage ⟨body ++ rest⟩
    ∧ _analyze_classes ⟨.asyncFunctionDef n l a body :: rest⟩
        = _analyze_classes ⟨body ++ rest⟩
    ∧ (_analyze_classes ⟨[.classDef cn cl (.asyncFunctionDef n l a body :: cbody)]⟩).head?.map
          (·.methods)
        = (_analyze_classes ⟨[.classDef cn cl cbody]⟩).head?.map (·.methods) := by
  have hw : walkStmts (.asyncFunctionDef n l a body :: rest)
      = .stmt (.asyncFunctionDef n l a body) :: walkStmts (body ++ rest) := by
    rw [walkStmts, walkStmt, walkStmts_append]
    rfl
  refine ⟨?_, ?_, ?_, ?_, ?_⟩
  · unfold _analyze_functions walkModule
    rw [hw]
    simp [List.filterMap_cons, funcInfoOfNode]
  · unfold _calculate_average_complexity walkModule
    rw [hw]
    simp [List.filterMap_cons, complexityOfNode]
  · unfold _check_docstring_coverage walkModule
    rw [hw, docCounts_eq_countP, docCounts_eq_countP]
    simp [List.countP_cons, isDefOrClassNode, nodeHasDocstring]
  · unfold _analyze_classes walkModule
    rw [hw]
    simp [List.filterMap_cons, classInfoOfNode]
  · unfold _analyze_classes walkModule
    simp [walkStmts, walkStmt, List.filterMap_cons, classInfoOfNode,
      List.countP_cons, isFunctionDefStmt]

/-- The complexity recorded for any extracted function is at least 1. -/
theorem funcInfoOfNode_complexity_pos (nd : Node) (f : FuncInfo)
    (h : funcInfoOfNode nd = some f) : 1 ≤ f.complexity := by
  cases nd with
  | stmt s =>
      cases s <;> simp [funcInfoOfNode] at h
      case functionDef n l a b =>
        rw [← h]
        simp [_calculate_complexity]
  | expr e => simp [funcInfoOfNode] at h
  | handler hd => simp [funcInfoOfNode] at h
  | op k => simp [funcInfoOfNode] at h
  | module b => simp [funcInfoOfNode] at h

/-- The average complexity of a tree is zero exactly when it has no
function records. -/
theorem avg_complexity_zero_iff (tree : Module) :
    _calculate_average_complexity tree = 0 ↔ _analyze_functions tree = [] := by
  unfold _calculate_average_complexity _analyze_functions
  dsimp only
  rw [filterMap_complexity_eq]
  cases hfs : (walkModule tree).filterMap funcInfoOfNode with
  | nil => simp
  | cons f fs =>
      have hmem : f ∈ (walkModule tree).filterMap funcInfoOfNode := by
        rw [hfs]; exact List.mem_cons_self f fs
      obtain ⟨nd, _, hnd⟩ := List.mem_filterMap.mp hmem
      have hc : 1 ≤ f.complexity := funcInfoOfNode_complexity_pos nd f hnd
      constructor
      · intro h
        exfalso
        rw [List.map_cons, List.isEmpty_cons] at h
        simp only [if_neg Bool.false_ne_true, List.sum_cons] at h
        rw [div_eq_zero_iff] at h
        rcases h with h | h
        · rw [Nat.cast_eq_zero] at h
          omega
        · rw [Nat.cast_eq_zero] at h
          simp at h
      · intro h
        exact absurd h (List.cons_ne_nil f fs)

/-- C4: the complexity of any node is 1 plus the number of conditional,
while, for, exception-handler, logical-AND and logical-OR nodes in its
whole subtree (the walk does not stop at nested definitions), hence at
least 1; the average complexity is the mean of the function complexities,
is never negative, and is zero exactly when the file has no functions. -/
theorem C4_complexity_counting (node : Stmt) (tree : Module) :
    1 ≤ _calculate_complexity node
    ∧ _calculate_complexity node = 1 + (walkStmt node).countP isDecisionNode
    ∧ 0 ≤ _calculate_average_complexity tree
    ∧ (_calculate_average_complexity tree = 0 ↔ _analyze_functions tree = []) := by
  refine ⟨Nat.le_add_right 1 _, rfl, ?_, avg_complexity_zero_iff tree⟩
  unfold _calculate_average_complexity
  dsimp only
  split
  · exact le_refl 0
  · exact div_nonneg (Nat.cast_nonneg _) (Nat.cast_nonneg _)

/-- The loop accumulators of `analyze_directory`: the success list is the
ordered sequence of successful per-file analyses, and each total is the
plain sum of the corresponding per-file field over that list. -/
theorem dirScan_spec (parse : String → Option Module) (files : List SourceFile) :
    (dirScan parse files).file_analyses
        = files.filterMap (fun f => (analyze_file parse f).toOption)
    ∧ (dirScan parse files).total_loc
        = (((dirScan parse files).file_analyses).map (·.lines_of_code)).sum
    ∧ (dirScan parse files).total_functions
        = (((dirScan parse files).file_analyses).map (·.functions.length)).sum
    ∧ (dirScan parse files).total_classes
        = (((dirScan parse files).file_analyses).map (·.classes.length)).sum
    ∧ (dirScan parse files).total_complexity
        = (((dirScan parse files).file_analyses).map (·.complexity)).sum := by
  induction files with
  | nil => exact ⟨rfl, rfl, rfl, rfl, rfl⟩
  | cons f fs ih =>
      obtain ⟨ih1, ih2, ih3, ih4, ih5⟩ := ih
      unfold dirScan
      cases hf : analyze_file parse f with
      | error e =>
          simp only [hf, List.filterMap_cons, Except.toOption]
          exact ⟨ih1, ih2, ih3, ih4, ih5⟩
      | ok a =>
          simp only [hf, List.filterMap_cons, Except.toOption, List.map_cons, List.sum_cons]
          exact ⟨by rw [ih1]; rfl, by rw [ih2], by rw [ih3], by rw [ih4], by rw [ih5]⟩

/-- C5: when at least one file analyzes successfully, `analyze_directory`
returns a record whose `files` are the successes in order, whose totals are
the plain sums of the per-file lines-of-code, function-count and
class-count fields, and whose average complexity and overall quality score
are the unweighted arithmetic means of the per-file `complexity` and
`code_quality_score` fields (sum over number of files, not any
count-weighted recomputation). -/
theorem C5_directory_aggregation (parse : String → Option Module) (directory : String)
    (files : List SourceFile) (h : (dirScan parse files).file_analyses ≠ []) :
    ∃ da : DirectoryAnalysis,
      analyze_directory parse directory files = .ok da
      ∧ da.files = (dirScan parse files).file_analyses
      ∧ da.total_files = da.files.length
      ∧ da.total_lines_of_code = (da.files.map (·.lines_of_code)).sum
      ∧ da.total_functions = (da.files.map (·.functions.length)).sum
      ∧ da.total_classes = (da.files.map (·.classes.length)).sum
      ∧ da.average_complexity = (da.files.map (·.complexity)).sum / (da.files.length : ℚ)
      ∧ da.overall_quality_score
          = (da.files.map (·.code_quality_score)).sum / (da.files.length : ℚ) := by
  obtain ⟨hs1, hs2, hs3, hs4, hs5⟩ := dirScan_spec parse files
  have hfe : files ≠ [] := by
    rintro rfl
    exact h rfl
  have hemp : files.isEmpty = false := by
    simpa [List.isEmpty_iff] using hfe
  have hsemp : (dirScan parse files).file_analyses.isEmpty = false := by
    simpa [List.isEmpty_iff] using h
  unfold analyze_directory
  rw [hemp]
  simp only [Bool.false_eq_true, if_false, hsemp, Bool.not_false, if_pos]
  exact ⟨_, rfl, rfl, rfl, hs2, hs3, hs4, by rw [hs5], rfl⟩

/-- Witness for C5 on a one-file directory whose file parses to an empty
module. -/
theorem C5_directory_aggregation_witness :
    ∃ da : DirectoryAnalysis,
      analyze_directory (fun _ => some ⟨[]⟩) "w" [⟨"a.py", .ok "x = 1"⟩] = .ok da
      ∧ da.files = (dirScan (fun _ => some ⟨[]⟩) [⟨"a.py", .ok "x = 1"⟩]).file_analyses
      ∧ da.total_files = da.files.length
      ∧ da.total_lines_of_code = (da.files.map (·.lines_of_code)).sum
      ∧ da.total_functions = (da.files.map (·.functions.length)).sum
      ∧ da.total_classes = (da.files.map (·.classes.length)).sum
      ∧ da.average_complexity = (da.files.map (·.complexity)).sum / (da.files.length : ℚ)
      ∧ da.overall_quality_score
          = (da.files.map (·.code_quality_score)).sum / (da.files.length : ℚ) :=
  C5_directory_aggregation (fun _ => some ⟨[]⟩) "w" [⟨"a.py", .ok "x = 1"⟩]
    (by simp [dirScan, analyze_file])

/-- Counterexample to C1 as stated: a directory holding one discovered but
unreadable file yields a zero-valued `DirectoryAnalysis` record, not an
`AnalysisError`. -/
theorem C1_zero_success_counterexample :
    analyze_directory (fun _ => none) "d" [⟨"f.py", .error "boom"⟩]
      = .ok { directory := "d", total_files := 0, total_lines_of_code := 0,
              total_functions := 0, total_classes := 0, average_complexity := 0,
              files := [], overall_quality_score := 0 } := rfl

/-- C1 (amended): `analyze_directory` returns the `AnalysisError`
`"No Python files found"` exactly when zero candidate files are discovered;
when candidate files exist but every one of them fails to analyze, it
returns a `DirectoryAnalysis` record with zero-valued totals and averages
instead of an error. -/
theorem C1_zero_success_amended (parse : String → Option Module) (directory : String)
    (files : List SourceFile) :
    (files = [] → analyze_directory parse directory files = .error "No Python files found")
    ∧ (files ≠ [] → (dirScan parse files).file_analyses = [] →
        analyze_directory parse directory files
          = .ok { directory := directory, total_files := 0, total_lines_of_code := 0,
                  total_functions := 0, total_classes := 0, average_complexity := 0,
                  files := [], overall_quality_score := 0 }) := by
  constructor
  · rintro rfl
    rfl
  · intro hne hnil
    obtain ⟨hs1, hs2, hs3, hs4, hs5⟩ := dirScan_spec parse files
    have hemp : files.isEmpty = false := by
      simpa [List.isEmpty_iff] using hne
    unfold analyze_directory
    rw [hemp]
    simp [hnil, hnil ▸ hs2, hnil ▸ hs3, hnil ▸ hs4]

/-- Witness for C1 (amended): the empty candidate list errors; a non-empty
candidate list whose only file is unreadable yields the zero record. -/
theorem C1_zero_success_amended_witness :
    analyze_directory (fun _ => none) "w" ([] : List SourceFile)
        = .error "No Python files found"
    ∧ analyze_directory (fun _ => none) "w" [⟨"g.py", .error "nope"⟩]
        = .ok { directory := "w", total_files := 0, total_lines_of_code := 0,
                total_functions := 0, total_classes := 0, average_complexity := 0,
                files := [], overall_quality_score := 0 } :=
  ⟨(C1_zero_success_amended (fun _ => none) "w" []).1 rfl,
   (C1_zero_success_amended (fun _ => none) "w" [⟨"g.py", .error "nope"⟩]).2
     (List.cons_ne_nil _ _) rfl⟩

/-- C3: end-to-end analysis of a source whose parse is a module of exactly
two top-level plain function definitions — with no nested definitions or
classes, no docstrings, no decision nodes in either body, and at most 5
parameters each — yields complexity 1 for both functions, average
complexity 1.0, docstring coverage 0.0, and quality score
100 − 0 + (0 − 50) × 0.3 = 85.0. -/
theorem C3_two_plain_functions (parse : String → Option Module) (p code : String)
    (n1 n2 : String) (l1 l2 : Nat) (a1 a2 : Args) (b1 b2 : List Stmt)
    (hm : parse code = some ⟨[.functionDef n1 l1 a1 b1, .functionDef n2 l2 a2 b2]⟩)
    (hb1 : (walkStmts b1).countP isDecisionNode = 0)
    (hb2 : (walkStmts b2).countP isDecisionNode = 0)
    (hn1 : (walkStmts b1).countP isDefOrClassNode = 0)
    (hn2 : (walkStmts b2).countP isDefOrClassNode = 0)
    (hd1 : get_docstring b1 = none) (hd2 : get_docstring b2 = none)
    (hp1 : a1.args.length ≤ 5) (hp2 : a2.args.length ≤ 5) :
    ∃ fa : FileAnalysis,
      analyze_file parse ⟨p, .ok code⟩ = .ok fa
      ∧ fa.functions.map (·.complexity) = [1, 1]
      ∧ fa.complexity = 1
      ∧ fa.docstring_coverage = 0
      ∧ fa.code_quality_score = 85 := by
  have hc1 : _calculate_complexity (.functionDef n1 l1 a1 b1) = 1 := by
    simp [_calculate_complexity, walkStmt, List.countP_cons, isDecisionNode, hb1]
  have hc2 : _calculate_complexity (.functionDef n2 l2 a2 b2) = 1 := by
    simp [_calculate_complexity, walkStmt, List.countP_cons, isDecisionNode, hb2]
  have hfuncs : _analyze_functions ⟨[.functionDef n1 l1 a1 b1, .functionDef n2 l2 a2 b2]⟩
      = [⟨n1, l1, 1, (get_docstring b1).isSome, a1.args.length⟩,
         ⟨n2, l2, 1, (get_docstring b2).isSome, a2.args.length⟩] := by
    unfold _analyze_functions walkModule
    simp only [walkStmts, walkStmt]
    simp [List.filterMap_cons, List.filterMap_append, funcInfoOfNode,
      filterMap_funcInfo_nil _ hn1, filterMap_funcInfo_nil _ hn2, hc1, hc2]
  have havg : _calculate_average_complexity
      ⟨[.functionDef n1 l1 a1 b1, .functionDef n2 l2 a2 b2]⟩ = 1 := by
    unfold _calculate_average_complexity
    dsimp only
    rw [filterMap_complexity_eq]
    have hrepr : (walkModule ⟨[.functionDef n1 l1 a1 b1, .functionDef n2 l2 a2 b2]⟩).filterMap
        funcInfoOfNode = _ := hfuncs
    rw [hrepr]
    norm_num
  have hz1 : (walkStmts b1).countP nodeHasDocstring = 0 :=
    countP_zero_of_le nodeHasDocstring_le_isDefOrClass _ hn1
  have hz2 : (walkStmts b2).countP nodeHasDocstring = 0 :=
    countP_zero_of_le nodeHasDocstring_le_isDefOrClass _ hn2
  have hcov : _check_docstring_coverage
      ⟨[.functionDef n1 l1 a1 b1, .functionDef n2 l2 a2 b2]⟩ = 0 := by
    unfold _check_docstring_coverage walkModule
    rw [docCounts_eq_countP]
    simp only [walkStmts, walkStmt]
    simp [List.countP_cons, List.countP_append, isDefOrClassNode, nodeHasDocstring,
      hn1, hn2, hz1, hz2, hd1, hd2]
  have hrun : analyze_file parse ⟨p, .ok code⟩ = .ok
      { file_path := p, lines_of_code := count_lines_of_code code,
        functions := _analyze_functions ⟨[.functionDef n1 l1 a1 b1, .functionDef n2 l2 a2 b2]⟩,
        classes := _analyze_classes ⟨[.functionDef n1 l1 a1 b1, .functionDef n2 l2 a2 b2]⟩,
        complexity := _calculate_average_complexity
          ⟨[.functionDef n1 l1 a1 b1, .functionDef n2 l2 a2 b2]⟩,
        docstring_coverage := _check_docstring_coverage
          ⟨[.functionDef n1 l1 a1 b1, .functionDef n2 l2 a2 b2]⟩,
        code_quality_score := _calculate_quality_score
          { file_path := p, lines_of_code := count_lines_of_code code,
            functions := _analyze_functions
              ⟨[.functionDef n1 l1 a1 b1, .functionDef n2 l2 a2 b2]⟩,
            classes := _analyze_classes
              ⟨[.functionDef n1 l1 a1 b1, .functionDef n2 l2 a2 b2]⟩,
            complexity := _calculate_average_complexity
              ⟨[.functionDef n1 l1 a1 b1, .functionDef n2 l2 a2 b2]⟩,
            docstring_coverage := _check_docstring_coverage
              ⟨[.functionDef n1 l1 a1 b1, .functionDef n2 l2 a2 b2]⟩,
            code_quality_score := 0 } } := by
    simp only [analyze_file, hm]
  refine ⟨_, hrun, ?_, ?_, ?_, ?_⟩
  · dsimp only
    rw [hfuncs]
    rfl
  · exact havg
  · exact hcov
  · dsimp only
    rw [quality_score_closed_form]
    dsimp only
    rw [havg, hcov, hfuncs]
    have hq1 : ¬(a1.args.length > 5) := Nat.not_lt.mpr hp1
    have hq2 : ¬(a2.args.length > 5) := Nat.not_lt.mpr hp2
    simp only [List.countP_cons, List.countP_nil, decide_eq_true_eq, complexityBandPenalty]
    norm_num [hq1, hq2]

/-- Witness for C3: two concrete one-statement functions with 1 and 2
parameters. -/
theorem C3_two_plain_functions_witness :
    ∃ fa : FileAnalysis,
      analyze_file
          (fun _ => some ⟨[.functionDef "f" 1 ⟨[], ["x"], [], none, none⟩ [.passStmt],
                           .functionDef "g" 3 ⟨[], ["a", "b"], [], none, none⟩
                             [.ret (some (.nameE "a"))]]⟩)
          ⟨"two.py", .ok "def f(x):\n    pass\n\ndef g(a, b):\n    return a\n"⟩
        = .ok fa
      ∧ fa.functions.map (·.complexity) = [1, 1]
      ∧ fa.complexity = 1
      ∧ fa.docstring_coverage = 0
      ∧ fa.code_quality_score = 85 :=
  C3_two_plain_functions
    (fun _ => some ⟨[.functionDef "f" 1 ⟨[], ["x"], [], none, none⟩ [.passStmt],
                     .functionDef "g" 3 ⟨[], ["a", "b"], [], none, none⟩
                       [.ret (some (.nameE "a"))]]⟩)
    "two.py" "def f(x):\n    pass\n\ndef g(a, b):\n    return a\n"
    "f" "g" 1 3 ⟨[], ["x"], [], none, none⟩ ⟨[], ["a", "b"], [], none, none⟩
    [.passStmt] [.ret (some (.nameE "a"))]
    rfl rfl rfl rfl rfl rfl rfl (by decide) (by decide)

end CodeQuality
